import Mathlib

/-!
Shallow embedding of the `ThreeTierEksStack` CDK declaration
(`src/three_tier_eks/three_tier_eks_stack.py` and `src/app.py`).

The stack is a static topology declaration: a VPC, an EKS cluster, an RDS
instance with its security group, a workload-identity IAM policy for the
load-balancer controller, and four stack outputs.  The properties of each
construct are transcribed into plain Lean structures; the synthesized
resource graph is a pure function of the environment inputs and the
availability zones offered by the target region.
-/

namespace ThreeTierEks

/-- Effect of an IAM policy statement (every statement in the stack uses ALLOW). -/
inductive Effect
  | allow
  | deny
deriving DecidableEq, Repr

/-- One condition clause of an IAM statement: operator, context key, expected value.
Transcribes entries such as Null / aws:RequestedRegion / false. -/
structure Condition where
  op : String
  key : String
  value : String
deriving DecidableEq, Repr

/-- An IAM policy statement as passed to `add_to_principal_policy`. -/
structure PolicyStatement where
  effect : Effect
  actions : List String
  resources : List String
  conditions : List Condition
deriving DecidableEq, Repr

/-- The resource-tag context key used as cluster-ownership marker in the stack. -/
def clusterTagKey : String := "aws:ResourceTag/elbv2.k8s.aws/cluster"

/-- Statement 1 (lines 140-170): unconditional read-only describe actions. -/
def albStmt1 : PolicyStatement :=
  { effect := .allow
    actions := [
      "iam:CreateServiceLinkedRole",
      "ec2:DescribeAccountAttributes",
      "ec2:DescribeAddresses",
      "ec2:DescribeAvailabilityZones",
      "ec2:DescribeInternetGateways",
      "ec2:DescribeVpcs",
      "ec2:DescribeSubnets",
      "ec2:DescribeSecurityGroups",
      "ec2:DescribeInstances",
      "ec2:DescribeNetworkInterfaces",
      "ec2:DescribeTags",
      "ec2:GetCoipPoolUsage",
      "ec2:DescribeCoipPools",
      "elasticloadbalancing:DescribeLoadBalancers",
      "elasticloadbalancing:DescribeLoadBalancerAttributes",
      "elasticloadbalancing:DescribeListeners",
      "elasticloadbalancing:DescribeListenerCertificates",
      "elasticloadbalancing:DescribeSSLPolicies",
      "elasticloadbalancing:DescribeRules",
      "elasticloadbalancing:DescribeTargetGroups",
      "elasticloadbalancing:DescribeTargetGroupAttributes",
      "elasticloadbalancing:DescribeTargetHealth",
      "elasticloadbalancing:DescribeTags"]
    resources := ["*"]
    conditions := [] }

/-- Statement 2 (lines 172-197): certificate, WAF and shield helper actions, unconditional. -/
def albStmt2 : PolicyStatement :=
  { effect := .allow
    actions := [
      "cognito-idp:DescribeUserPoolClient",
      "acm:ListCertificates",
      "acm:DescribeCertificate",
      "iam:ListServerCertificates",
      "iam:GetServerCertificate",
      "waf-regional:GetWebACL",
      "waf-regional:GetWebACLForResource",
      "waf-regional:AssociateWebACL",
      "waf-regional:DisassociateWebACL",
      "wafv2:GetWebACL",
      "wafv2:GetWebACLForResource",
      "wafv2:AssociateWebACL",
      "wafv2:DisassociateWebACL",
      "shield:DescribeProtection",
      "shield:GetSubscriptionState",
      "shield:DescribeSubscription",
      "shield:CreateProtection",
      "shield:DeleteProtection"]
    resources := ["*"]
    conditions := [] }

/-- Statement 3 (lines 199-218): security-group ingress changes and listener/rule
lifecycle actions, with no condition block. -/
def albStmt3 : PolicyStatement :=
  { effect := .allow
    actions := [
      "ec2:AuthorizeSecurityGroupIngress",
      "ec2:RevokeSecurityGroupIngress",
      "ec2:CreateSecurityGroup",
      "elasticloadbalancing:CreateListener",
      "elasticloadbalancing:DeleteListener",
      "elasticloadbalancing:CreateRule",
      "elasticloadbalancing:DeleteRule",
      "elasticloadbalancing:SetWebAcl",
      "elasticloadbalancing:ModifyListener",
      "elasticloadbalancing:AddListenerCertificates",
      "elasticloadbalancing:RemoveListenerCertificates",
      "elasticloadbalancing:ModifyRule"]
    resources := ["*"]
    conditions := [] }

/-- Statement 4 (lines 220-234): load-balancer / target-group creation, conditioned
on the request region being present. -/
def albStmt4 : PolicyStatement :=
  { effect := .allow
    actions := [
      "elasticloadbalancing:CreateLoadBalancer",
      "elasticloadbalancing:CreateTargetGroup"]
    resources := ["*"]
    conditions := [⟨"Null", "aws:RequestedRegion", "false"⟩] }

/-- Statement 5 (lines 236-264): load-balancer / target-group mutation, conditioned
on the cluster-ownership resource tag. -/
def albStmt5 : PolicyStatement :=
  { effect := .allow
    actions := [
      "elasticloadbalancing:CreateLoadBalancer",
      "elasticloadbalancing:CreateTargetGroup",
      "elasticloadbalancing:DeleteLoadBalancer",
      "elasticloadbalancing:DeleteTargetGroup",
      "elasticloadbalancing:ModifyLoadBalancerAttributes",
      "elasticloadbalancing:ModifyTargetGroup",
      "elasticloadbalancing:ModifyTargetGroupAttributes",
      "elasticloadbalancing:RegisterTargets",
      "elasticloadbalancing:DeregisterTargets",
      "elasticloadbalancing:SetIpAddressType",
      "elasticloadbalancing:SetSecurityGroups",
      "elasticloadbalancing:SetSubnets",
      "elasticloadbalancing:DeleteLoadBalancer",
      "elasticloadbalancing:DeleteTargetGroup",
      "elasticloadbalancing:AddTags",
      "elasticloadbalancing:RemoveTags"]
    resources := ["*"]
    conditions := [⟨"Null", clusterTagKey, "false"⟩] }

/-- Statement 6 (lines 266-282): tagging newly created security groups, conditioned
on the create action and the request region. -/
def albStmt6 : PolicyStatement :=
  { effect := .allow
    actions := ["ec2:CreateTags"]
    resources := ["arn:aws:ec2:*:*:security-group/*"]
    conditions := [
      ⟨"StringEquals", "ec2:CreateAction", "CreateSecurityGroup"⟩,
      ⟨"Null", "aws:RequestedRegion", "false"⟩] }

/-- Statement 7 (lines 284-298): security-group tag mutation, conditioned on the
cluster-ownership resource tag. -/
def albStmt7 : PolicyStatement :=
  { effect := .allow
    actions := ["ec2:CreateTags", "ec2:DeleteTags"]
    resources := ["arn:aws:ec2:*:*:security-group/*"]
    conditions := [⟨"Null", clusterTagKey, "false"⟩] }

/-- Statement 8 (lines 300-315): security-group rule mutation and deletion,
conditioned on the cluster-ownership resource tag. -/
def albStmt8 : PolicyStatement :=
  { effect := .allow
    actions := [
      "ec2:AuthorizeSecurityGroupIngress",
      "ec2:RevokeSecurityGroupIngress",
      "ec2:DeleteSecurityGroup"]
    resources := ["*"]
    conditions := [⟨"Null", clusterTagKey, "false"⟩] }

/-- Statement 9 (lines 317-335): load-balancer / target-group tag mutation,
conditioned on the cluster-ownership resource tag. -/
def albStmt9 : PolicyStatement :=
  { effect := .allow
    actions := [
      "elasticloadbalancing:AddTags",
      "elasticloadbalancing:RemoveTags"]
    resources := [
      "arn:aws:elasticloadbalancing:*:*:targetgroup/*/*",
      "arn:aws:elasticloadbalancing:*:*:loadbalancer/net/*/*",
      "arn:aws:elasticloadbalancing:*:*:loadbalancer/app/*/*"]
    conditions := [⟨"Null", clusterTagKey, "false"⟩] }

/-- Statement 10 (lines 337-351): listener and listener-rule tag mutation, with no
condition block. -/
def albStmt10 : PolicyStatement :=
  { effect := .allow
    actions := [
      "elasticloadbalancing:AddTags",
      "elasticloadbalancing:RemoveTags"]
    resources := [
      "arn:aws:elasticloadbalancing:*:*:listener/net/*/*/*",
      "arn:aws:elasticloadbalancing:*:*:listener/app/*/*/*",
      "arn:aws:elasticloadbalancing:*:*:listener-rule/net/*/*/*",
      "arn:aws:elasticloadbalancing:*:*:listener-rule/app/*/*/*"]
    conditions := [] }

/-- The ordered list of statements attached to the ALB service account by the ten
`add_to_principal_policy` calls (lines 140-351). -/
def albPolicyStatements : List PolicyStatement :=
  [albStmt1, albStmt2, albStmt3, albStmt4, albStmt5,
   albStmt6, albStmt7, albStmt8, albStmt9, albStmt10]

/-- Mutating (create / delete / modify / set / register / authorize / revoke)
actions over listeners, rules, target groups, or security groups; the tag
actions AddTags / RemoveTags / CreateTags / DeleteTags form their own category
and are not listed here. -/
def mutatingGuardedActions : List String :=
  ["ec2:AuthorizeSecurityGroupIngress",
   "ec2:RevokeSecurityGroupIngress",
   "ec2:CreateSecurityGroup",
   "ec2:DeleteSecurityGroup",
   "elasticloadbalancing:CreateListener",
   "elasticloadbalancing:DeleteListener",
   "elasticloadbalancing:ModifyListener",
   "elasticloadbalancing:AddListenerCertificates",
   "elasticloadbalancing:RemoveListenerCertificates",
   "elasticloadbalancing:CreateRule",
   "elasticloadbalancing:DeleteRule",
   "elasticloadbalancing:ModifyRule",
   "elasticloadbalancing:CreateTargetGroup",
   "elasticloadbalancing:DeleteTargetGroup",
   "elasticloadbalancing:ModifyTargetGroup",
   "elasticloadbalancing:ModifyTargetGroupAttributes"]

/-- A statement grants a mutating action over listeners, rules, target groups, or
security groups. -/
def mutatesGuardedClass (s : PolicyStatement) : Prop :=
  ∃ a ∈ s.actions, a ∈ mutatingGuardedActions

instance (s : PolicyStatement) : Decidable (mutatesGuardedClass s) := by
  unfold mutatesGuardedClass; infer_instance

/-- A statement carries a condition block and every clause restricts either on the
cluster-ownership resource tag or on the request region. -/
def ownershipOrRegionConditioned (s : PolicyStatement) : Prop :=
  s.conditions ≠ [] ∧
    ∀ c ∈ s.conditions,
      c.key = clusterTagKey ∨ c.key = "aws:RequestedRegion"

instance (s : PolicyStatement) : Decidable (ownershipOrRegionConditioned s) := by
  unfold ownershipOrRegionConditioned; infer_instance

/-- Subnet tier, mirroring `ec2.SubnetType`. -/
inductive SubnetType
  | public
  | privateWithEgress
  | privateIsolated
deriving DecidableEq, Repr

/-- One entry of the `subnet_configuration` list passed to `ec2.Vpc`. -/
structure SubnetConfiguration where
  name : String
  subnetType : SubnetType
  cidrMask : Nat
deriving DecidableEq, Repr

/-- Properties of the `ec2.Vpc` construct as declared at lines 20-41.  The VPC
address block is the CDK default since the declaration does not override it. -/
structure VpcProps where
  maxAzs : Nat
  natGateways : Nat
  cidrBlock : String
  subnetConfiguration : List SubnetConfiguration
deriving DecidableEq, Repr

/-- The `ThreeTierVPC` declaration (lines 20-41). -/
def threeTierVpcProps : VpcProps :=
  { maxAzs := 3
    natGateways := 2
    cidrBlock := "10.0.0.0/16"
    subnetConfiguration := [
      ⟨"public", .public, 24⟩,
      ⟨"private", .privateWithEgress, 24⟩,
      ⟨"database", .privateIsolated, 24⟩] }

/-- Target of the default (0.0.0.0/0) route of a subnet. -/
inductive RouteTarget
  | internetGateway
  | natGateway
deriving DecidableEq, Repr

/-- A synthesized subnet: its tier configuration, the availability zone it is
placed in, and its default route. -/
structure Subnet where
  tierName : String
  subnetType : SubnetType
  az : String
  defaultRoute : Option RouteTarget
deriving DecidableEq, Repr

/-- Default route installed per subnet tier: public subnets route to the
internet gateway, private-with-egress subnets to a NAT gateway, and isolated
subnets get no default route. -/
def defaultRouteFor : SubnetType → Option RouteTarget
  | .public => some .internetGateway
  | .privateWithEgress => some .natGateway
  | .privateIsolated => none

/-- Subnets synthesized from a VPC declaration: one subnet per configured tier
per availability zone, over the first `maxAzs` zones offered by the region. -/
def synthesizeSubnets (props : VpcProps) (azs : List String) : List Subnet :=
  (props.subnetConfiguration.map (fun cfg =>
    (azs.take props.maxAzs).map (fun az =>
      { tierName := cfg.name
        subnetType := cfg.subnetType
        az := az
        defaultRoute := defaultRouteFor cfg.subnetType }))).flatten

/-- API endpoint access mode, mirroring `eks.EndpointAccess`. -/
inductive EndpointAccess
  | publicOnly
  | privateOnly
  | publicAndPrivate
deriving DecidableEq, Repr

/-- Control-plane log category, mirroring `eks.ClusterLoggingTypes`. -/
inductive ClusterLoggingType
  | api
  | audit
  | authenticator
  | controllerManager
  | scheduler
deriving DecidableEq, Repr

/-- Properties of the `eks.Cluster` construct declared at lines 45-59. -/
structure ClusterProps where
  version : String
  defaultCapacity : Nat
  endpointAccess : EndpointAccess
  vpcSubnets : List SubnetType
  clusterLogging : List ClusterLoggingType
deriving DecidableEq, Repr

/-- The `ThreeTierCluster` declaration (lines 45-59). -/
def threeTierClusterProps : ClusterProps :=
  { version := "1.30"
    defaultCapacity := 0
    endpointAccess := .publicAndPrivate
    vpcSubnets := [.privateWithEgress]
    clusterLogging := [.api, .audit, .authenticator, .controllerManager, .scheduler] }

/-- One ingress rule of a security group, as added by `add_ingress_rule`. -/
structure IngressRule where
  peerCidr : String
  protocol : String
  fromPort : Nat
  toPort : Nat
  description : String
deriving DecidableEq, Repr

/-- A security group: the outbound-all flag and its ingress rules. -/
structure SecurityGroup where
  description : String
  allowAllOutbound : Bool
  ingressRules : List IngressRule
deriving DecidableEq, Repr

/-- The `DatabaseSecurityGroup` declaration (lines 93-105): outbound closed, and a
single ingress rule admitting TCP 5432 from the CIDR block of the given VPC. -/
def dbSecurityGroup (vpc : VpcProps) : SecurityGroup :=
  { description := "Security group for RDS PostgreSQL database"
    allowAllOutbound := false
    ingressRules := [
      { peerCidr := vpc.cidrBlock
        protocol := "tcp"
        fromPort := 5432
        toPort := 5432
        description := "Allow PostgreSQL access from VPC" }] }

/-- Teardown policy, mirroring `RemovalPolicy`. -/
inductive RemovalPolicy
  | destroy
  | retain
  | snapshot
deriving DecidableEq, Repr

/-- Properties of the `rds.DatabaseInstance` construct declared at lines 116-130.
The credentials field records only the generated-secret username: the secret
value never appears in the declaration. -/
structure DatabaseInstanceProps where
  engine : String
  engineVersion : String
  instanceType : String
  generatedSecretUsername : String
  subnetType : SubnetType
  securityGroups : List SecurityGroup
  databaseName : String
  backupRetentionDays : Nat
  deletionProtection : Bool
  removalPolicy : RemovalPolicy
deriving DecidableEq, Repr

/-- The `PostgreSQLDatabase` declaration (lines 116-130), taking the VPC whose
security group guards it. -/
def postgreSQLDatabase (vpc : VpcProps) : DatabaseInstanceProps :=
  { engine := "postgres"
    engineVersion := "15.3"
    instanceType := "t3.micro"
    generatedSecretUsername := "dbadmin"
    subnetType := .privateIsolated
    securityGroups := [dbSecurityGroup vpc]
    databaseName := "threetierdb"
    backupRetentionDays := 7
    deletionProtection := false
    removalPolicy := .destroy }

/-- The value a stack output refers to.  The secret constructors distinguish the
secret store reference (its ARN) from the secret value itself, which the
declaration never exposes. -/
inductive OutputValue
  | clusterName
  | dbEndpointHostname
  | dbSecretArn
  | dbSecretValue
  | vpcId
deriving DecidableEq, Repr

/-- One `CfnOutput` of the stack. -/
structure StackOutput where
  name : String
  value : OutputValue
  description : String
deriving DecidableEq, Repr

/-- The four `CfnOutput` declarations (lines 354-376). -/
def stackOutputs : List StackOutput :=
  [⟨"ClusterName", .clusterName, "EKS Cluster Name"⟩,
   ⟨"DatabaseEndpoint", .dbEndpointHostname, "RDS Database Endpoint"⟩,
   ⟨"DatabaseSecretArn", .dbSecretArn, "RDS Database Secret ARN"⟩,
   ⟨"VpcId", .vpcId, "VPC ID"⟩]

/-- Environment inputs read by `src/app.py`: account and region from the process
environment, either of which may be absent. -/
structure Environment where
  account : Option String
  region : Option String
deriving DecidableEq, Repr

/-- The synthesized resource graph of the stack. -/
structure ResourceGraph where
  env : Environment
  vpc : VpcProps
  subnets : List Subnet
  cluster : ClusterProps
  databaseSecurityGroup : SecurityGroup
  database : DatabaseInstanceProps
  albPolicy : List PolicyStatement
  outputs : List StackOutput
deriving DecidableEq, Repr

/-- Synthesis of `ThreeTierEksStack` (`ThreeTierEksStack.__init__` driven by
`app.synth`): a pure function of the environment inputs and of the availability
zones the target region offers. -/
def synthesizeStack (env : Environment) (azs : List String) : ResourceGraph :=
  { env := env
    vpc := threeTierVpcProps
    subnets := synthesizeSubnets threeTierVpcProps azs
    cluster := threeTierClusterProps
    databaseSecurityGroup := dbSecurityGroup threeTierVpcProps
    database := postgreSQLDatabase threeTierVpcProps
    albPolicy := albPolicyStatements
    outputs := stackOutputs }

/-! Theorems.  Each claim of the specification is settled against the
embedded declaration. -/

/-- Helper: every synthesized subnet carries exactly the default route that its
tier prescribes. -/
theorem synthesizeSubnets_defaultRoute (props : VpcProps) (azs : List String) :
    ∀ s ∈ synthesizeSubnets props azs, s.defaultRoute = defaultRouteFor s.subnetType := by
  intro s hs
  simp only [synthesizeSubnets, List.mem_flatten, List.mem_map] at hs
  obtain ⟨l, ⟨cfg, hcfg, rfl⟩, hsl⟩ := hs
  obtain ⟨az, haz, rfl⟩ := List.mem_map.mp hsl
  rfl

/-- C1, counterexample: the third policy statement grants mutating actions over
listeners, rules, and security groups (for example CreateListener and
AuthorizeSecurityGroupIngress) yet carries no condition block at all, so it is
restricted neither to cluster-owned resources nor to a request region. -/
theorem albStmt3_mutating_yet_unconditional :
    albStmt3 ∈ albPolicyStatements ∧ mutatesGuardedClass albStmt3 ∧
      ¬ ownershipOrRegionConditioned albStmt3 := by
  decide

/-- C1, amended: every policy statement granting a mutating action over
listeners, rules, target groups, or security groups carries a condition block
restricted to the cluster-ownership tag or to the request region, with the sole
exception of the third statement (security-group ingress changes and
listener/rule lifecycle actions), which is unconditional; and the statements
with no condition block are exactly the two read-only/helper statements, that
third statement, and the final listener-tag statement. -/
theorem mutating_statements_conditioned_except_stmt3 :
    (∀ s ∈ albPolicyStatements, mutatesGuardedClass s →
      s = albStmt3 ∨ ownershipOrRegionConditioned s) ∧
    albPolicyStatements.filter (fun s => s.conditions.isEmpty) =
      [albStmt1, albStmt2, albStmt3, albStmt10] := by
  decide

/-- C1, amended witness: the fifth statement mutates target groups and is indeed
conditioned on the cluster-ownership tag. -/
theorem mutating_statements_conditioned_except_stmt3_witness :
    albStmt5 ∈ albPolicyStatements ∧ mutatesGuardedClass albStmt5 ∧
      (albStmt5 = albStmt3 ∨ ownershipOrRegionConditioned albStmt5) :=
  ⟨by decide, by decide,
    mutating_statements_conditioned_except_stmt3.1 albStmt5 (by decide) (by decide)⟩

/-- C2: for a region offering at least 3 distinct availability zones, the
synthesized network places exactly one subnet of each of the three tiers in
each of the first 3 zones, and every isolated subnet has no default route. -/
theorem three_tier_subnets_per_zone (azs : List String) (hnd : azs.Nodup)
    (hlen : 3 ≤ azs.length) :
    (∀ az ∈ azs.take 3, ∀ t : SubnetType,
      ((synthesizeSubnets threeTierVpcProps azs).filter
        (fun s => s.az == az && s.subnetType == t)).length = 1) ∧
    (∀ s ∈ synthesizeSubnets threeTierVpcProps azs,
      s.subnetType = SubnetType.privateIsolated → s.defaultRoute = none) := by
  constructor
  · rcases azs with _ | ⟨a, _ | ⟨b, _ | ⟨c, rest⟩⟩⟩ <;> simp at hlen
    · simp only [List.nodup_cons, List.mem_cons, not_or] at hnd
      obtain ⟨⟨hab, hac, _⟩, ⟨hbc, _⟩, _⟩ := hnd
      intro az haz t
      simp only [List.take_succ_cons, List.take_zero, List.mem_cons,
        List.not_mem_nil, or_false] at haz
      rcases haz with rfl | rfl | rfl <;> cases t <;>
        simp [synthesizeSubnets, threeTierVpcProps, defaultRouteFor,
          List.filter_cons, hab, hac, hbc,
          Ne.symm hab, Ne.symm hac, Ne.symm hbc]
  · intro s hs hiso
    rw [synthesizeSubnets_defaultRoute threeTierVpcProps azs s hs, hiso]
    rfl

/-- C2 witness: the invariant instantiated at three concrete zone names. -/
theorem three_tier_subnets_per_zone_witness :
    (["az1", "az2", "az3"] : List String).Nodup ∧
    3 ≤ (["az1", "az2", "az3"] : List String).length ∧
    ((∀ az ∈ (["az1", "az2", "az3"] : List String).take 3, ∀ t : SubnetType,
      ((synthesizeSubnets threeTierVpcProps ["az1", "az2", "az3"]).filter
        (fun s => s.az == az && s.subnetType == t)).length = 1) ∧
    (∀ s ∈ synthesizeSubnets threeTierVpcProps ["az1", "az2", "az3"],
      s.subnetType = SubnetType.privateIsolated → s.defaultRoute = none)) :=
  ⟨by decide, by decide,
    three_tier_subnets_per_zone ["az1", "az2", "az3"] (by decide) (by decide)⟩

/-- C3: the database security group admits ingress only through a single rule,
on TCP port 5432, whose source range is exactly the VPC CIDR block, and the
group does not allow unrestricted outbound traffic. -/
theorem db_security_rule_scope (env : Environment) (azs : List String) :
    (synthesizeStack env azs).databaseSecurityGroup.ingressRules.map
        (fun r => (r.protocol, r.fromPort, r.toPort, r.peerCidr)) =
      [("tcp", 5432, 5432, (synthesizeStack env azs).vpc.cidrBlock)] ∧
    (synthesizeStack env azs).databaseSecurityGroup.allowAllOutbound = false :=
  ⟨rfl, rfl⟩

/-- C4: in every synthesis, the database removal policy is full deletion and
deletion protection is disabled. -/
theorem db_teardown_policy (env : Environment) (azs : List String) :
    (synthesizeStack env azs).database.removalPolicy = RemovalPolicy.destroy ∧
    (synthesizeStack env azs).database.deletionProtection = false :=
  ⟨rfl, rfl⟩

/-- C6: the cluster is placed on the private-with-egress subnets, its API
endpoint access is public and private, and all five control-plane log
categories are enabled. -/
theorem cluster_subnets_endpoint_logging (env : Environment) (azs : List String) :
    (synthesizeStack env azs).cluster.vpcSubnets = [SubnetType.privateWithEgress] ∧
    (synthesizeStack env azs).cluster.endpointAccess = EndpointAccess.publicAndPrivate ∧
    ∀ t : ClusterLoggingType, t ∈ (synthesizeStack env azs).cluster.clusterLogging := by
  refine ⟨rfl, rfl, ?_⟩
  intro t
  cases t <;> simp [synthesizeStack, threeTierClusterProps]

/-- C7: the stack exposes exactly four outputs, whose values are the cluster
name, the database endpoint hostname, the database secret ARN (never the secret
value), and the VPC id, under four distinct names. -/
theorem stack_outputs_exactly_four (env : Environment) (azs : List String) :
    (synthesizeStack env azs).outputs.length = 4 ∧
    (synthesizeStack env azs).outputs.map StackOutput.value =
      [OutputValue.clusterName, OutputValue.dbEndpointHostname,
       OutputValue.dbSecretArn, OutputValue.vpcId] ∧
    (synthesizeStack env azs).outputs.map StackOutput.name =
      ["ClusterName", "DatabaseEndpoint", "DatabaseSecretArn", "VpcId"] ∧
    ((synthesizeStack env azs).outputs.map StackOutput.value).count
      OutputValue.dbSecretValue = 0 := by
  exact ⟨rfl, rfl, rfl, rfl⟩

/-- C8: synthesizing the declaration twice with the same environment inputs and
the same availability zones produces identical resource graphs. -/
theorem synthesis_deterministic (e₁ e₂ : Environment) (azs₁ azs₂ : List String)
    (henv : e₁ = e₂) (hazs : azs₁ = azs₂) :
    synthesizeStack e₁ azs₁ = synthesizeStack e₂ azs₂ := by
  subst henv
  subst hazs
  rfl

/-- C8 witness: two syntheses at a concrete environment coincide. -/
theorem synthesis_deterministic_witness :
    (⟨some "123456789012", some "us-east-1"⟩ : Environment) =
        ⟨some "123456789012", some "us-east-1"⟩ ∧
    (["a", "b", "c"] : List String) = ["a", "b", "c"] ∧
    synthesizeStack ⟨some "123456789012", some "us-east-1"⟩ ["a", "b", "c"] =
      synthesizeStack ⟨some "123456789012", some "us-east-1"⟩ ["a", "b", "c"] :=
  ⟨rfl, rfl,
    synthesis_deterministic _ _ _ _ rfl rfl⟩

/-- C9: the database backup retention is fixed at 7 days in every synthesis. -/
theorem db_backup_retention_seven_days (env : Environment) (azs : List String) :
    (synthesizeStack env azs).database.backupRetentionDays = 7 :=
  rfl

/-- C10: the final policy statement allows AddTags and RemoveTags over listener
and listener-rule ARNs with no condition block, while the preceding tag
statements are conditioned on the cluster-ownership resource tag. -/
theorem final_tag_statement_unconditional :
    albPolicyStatements.getLast? = some albStmt10 ∧
    albStmt10.actions =
      ["elasticloadbalancing:AddTags", "elasticloadbalancing:RemoveTags"] ∧
    albStmt10.resources =
      ["arn:aws:elasticloadbalancing:*:*:listener/net/*/*/*",
       "arn:aws:elasticloadbalancing:*:*:listener/app/*/*/*",
       "arn:aws:elasticloadbalancing:*:*:listener-rule/net/*/*/*",
       "arn:aws:elasticloadbalancing:*:*:listener-rule/app/*/*/*"] ∧
    albStmt10.conditions = [] ∧
    albStmt9.conditions = [⟨"Null", clusterTagKey, "false"⟩] ∧
    albStmt7.conditions = [⟨"Null", clusterTagKey, "false"⟩] :=
  ⟨rfl, rfl, rfl, rfl, rfl, rfl⟩

end ThreeTierEks
